import Mathlib

/-!
Shallow embedding of the weatherbox-service module (package models, file
src/unnamed/part_000, which is the module registered by main.go) together
with the older variant kept in src/models/module.go.  Go float64 sensor
values are modelled as exact rationals, Go maps with string keys as
association lists, and the fallible sensor read as an Except value.
-/

/-- Scalar value stored in a sensor reading (Go: map entries of type any;
the service only ever casts them to float64, so we track numbers, strings
and an opaque remainder). -/
inductive SVal where
  | num : ℚ → SVal
  | str : String → SVal
  | other : SVal
deriving DecidableEq

/-- Association-list model of a Go map with string keys; lookup returns the
value and whether the key exists, like `v, ok := m[k]`. -/
def lookupAssoc {α : Type} : List (String × α) → String → Option α
  | [], _ => none
  | (k, v) :: rest, key => if k = key then some v else lookupAssoc rest key

/-- A sensor reading as returned by weatherSensor.Readings. -/
abbrev Reading := List (String × SVal)

/-- Structured Go value, used for the animation command payloads sent to
the LED component (Go: nested map[string]any / []any / numbers / strings). -/
inductive GoVal where
  | num : ℚ → GoVal
  | str : String → GoVal
  | arr : List GoVal → GoVal
  | dict : List (String × GoVal) → GoVal

/-- Constant period from the source (const period = 3). -/
def period : ℚ := 3

/-- Constant duration from the source (const duration = period). -/
def duration : ℚ := period

/-- Hot temperature threshold from the source (const hot = 65.0). -/
def hot : ℚ := 65

/-- Cold temperature threshold from the source (const cold = 33.0). -/
def cold : ℚ := 33

def orange : List ℚ := [255, 70, 0]

def red : List ℚ := [255, 0, 120]

def magenta : List ℚ := [255, 0, 5]

def purple : List ℚ := [150, 0, 255]

def blue : List ℚ := [0, 0, 255]

def green : List ℚ := [50, 250, 10]

def cyan : List ℚ := [69, 255, 226]

def white : List ℚ := [255, 255, 255]

/-- One animation entry built inside generateSequence's inner loop:
map with set_animation "pulse", speed 0.001, period, and the single color. -/
def pulseAnimation (color : List ℚ) : GoVal :=
  GoVal.dict [("set_animation", GoVal.str "pulse"),
              ("speed", GoVal.num (1 / 1000)),
              ("period", GoVal.num period),
              ("colors", GoVal.arr [GoVal.arr (color.map GoVal.num)])]

/-- generateSequence from the source: for i in 0..2 build a sequence whose
animations rotate the color list by i, keyed by strconv.Itoa i. -/
def generateSequence (colors : List (List ℚ)) : GoVal :=
  GoVal.dict <| (List.range 3).map fun i =>
    (toString i,
     GoVal.dict [("sequence",
       GoVal.dict [("animations",
         GoVal.arr ((List.range colors.length).map fun j =>
           pulseAnimation (colors.getD ((i + j) % colors.length) []))),
         ("duration", GoVal.num duration)])])

/-- The static animation catalog (var animationMap in the source). -/
def animationMap : List (String × GoVal) :=
  [("sunny/hot", generateSequence [orange, red, magenta]),
   ("sunny/cold", generateSequence [orange, purple, blue]),
   ("cloudy/hot", generateSequence [white, magenta, red]),
   ("cloudy/cold", generateSequence [white, purple, blue]),
   ("rainy/hot", generateSequence [cyan, magenta, red]),
   ("none", generateSequence [green, magenta, red]),
   ("all", generateSequence [magenta, purple, orange])]

/-- Catalog lookup: animations, exists := animationMap[key]. -/
def animationLookup (key : String) : Option GoVal :=
  lookupAssoc animationMap key

/-- getCondition from the source: switch on the numeric condition code,
returning the sky-state string, with "none" as the default case. -/
def getCondition (code : ℚ) : String :=
  if code ∈ ([1000, 1003] : List ℚ) then "sunny"
  else if code ∈ ([1006, 1009, 1030, 1135, 1147] : List ℚ) then "cloudy"
  else if code ∈ ([1063, 1066, 1069, 1072, 1087, 1550, 1153,
                   1168, 1171, 1180, 1183, 1186, 1189, 1192, 1195,
                   1198, 1201, 1204, 1207, 1240, 1243, 1246, 1249,
                   1252, 1273, 1276, 1279, 1282] : List ℚ) then "rainy"
  else "none"

/-- Model of strings.ToLower restricted to ASCII (all keys in this module
are ASCII), written by structural recursion so it evaluates in the kernel. -/
def goToLower (s : String) : String :=
  String.mk (s.data.map Char.toLower)

/-- handleWeatherCondition reduced to its data flow: look up the lowercased
condition key in the catalog; an absent key means no LED command is issued
(the function logs and returns). -/
def handleWeatherCondition (condition : String) : Option GoVal :=
  animationLookup (goToLower condition)

/-- The condition key that one visualizeWeather cycle hands to
handleWeatherCondition, or none when the cycle is skipped early: sensor
read error, missing or non-float "code", or missing or non-float
"outside_f".  The temperature bucket follows the source exactly:
tempString starts as "hot" and becomes "cold" when tempOutside > hot. -/
def visualizeWeatherKey : Except String Reading → Option String
  | .error _ => none
  | .ok reading =>
    match lookupAssoc reading "code" with
    | none => none
    | some codeRaw =>
      match codeRaw with
      | .num code =>
        let condition := getCondition code
        match lookupAssoc reading "outside_f" with
        | none => none
        | some tempRaw =>
          match tempRaw with
          | .num tempOutside =>
            let tempString := if tempOutside > hot then "cold" else "hot"
            some (condition ++ "/" ++ tempString)
          | _ => none
      | _ => none

/-- One full visualizeWeather cycle: the LED command issued to the
actuator, or none when the cycle is skipped or the key is unknown. -/
def visualizeWeather (r : Except String Reading) : Option GoVal :=
  (visualizeWeatherKey r).bind handleWeatherCondition

/-- The condition key computed by the older variant of visualizeWeather in
src/models/module.go: requires a string "condition" field (whose value is
discarded) and a float "outside_f"; buckets with moderate as default, hot
when strictly above the hot threshold, cold when strictly below the cold
threshold; always uses the "sunny/" sky-state. -/
def visualizeWeatherKeyV2 : Except String Reading → Option String
  | .error _ => none
  | .ok reading =>
    match lookupAssoc reading "condition" with
    | none => none
    | some conditionRaw =>
      match conditionRaw with
      | .str _ =>
        match lookupAssoc reading "outside_f" with
        | none => none
        | some tempRaw =>
          match tempRaw with
          | .num tempOutside =>
            let tempString :=
              if tempOutside > hot then "hot"
              else if tempOutside < cold then "cold"
              else "moderate"
            some ("sunny/" ++ tempString)
          | _ => none
      | _ => none

/-- The eight keys visualizeWeather can derive (four sky-states times two
temperature buckets). -/
def possibleKeys : List String :=
  ["sunny/hot", "sunny/cold", "cloudy/hot", "cloudy/cold",
   "rainy/hot", "rainy/cold", "none/hot", "none/cold"]

lemma getCondition_cases (c : ℚ) :
    getCondition c = "sunny" ∨ getCondition c = "cloudy" ∨
    getCondition c = "rainy" ∨ getCondition c = "none" := by
  unfold getCondition
  split
  · exact Or.inl rfl
  · split
    · exact Or.inr (Or.inl rfl)
    · split
      · exact Or.inr (Or.inr (Or.inl rfl))
      · exact Or.inr (Or.inr (Or.inr rfl))

/-- Claim C1 counterexample: for the concrete reading with code 9999 and
outside temperature 50, the classifier derives the key "none/hot", which
is absent from the animation catalog, so the key handed to the catalog
lookup is not always present in the catalog. -/
theorem claim1_counterexample :
    visualizeWeatherKey
      (Except.ok [("code", SVal.num 9999), ("outside_f", SVal.num 50)])
      = some "none/hot" ∧
    animationLookup "none/hot" = none := by
  constructor <;> rfl

/-- Claim C1 (amended): the classifier is total (a skipped cycle aside, it
always derives one of eight keys), and when the derived key is unknown to
the catalog the cycle issues no actuator command at all: the unknown key
never reaches the actuator, but there is no fallback to a defined default
key. -/
theorem claim1_theorem (r : Except String Reading) :
    (∀ k, visualizeWeatherKey r = some k → k ∈ possibleKeys) ∧
    (∀ k, visualizeWeatherKey r = some k →
      animationLookup (goToLower k) = none → visualizeWeather r = none) := by
  constructor
  · intro k hk
    match r with
    | .error e => simp [visualizeWeatherKey] at hk
    | .ok reading =>
      simp only [visualizeWeatherKey] at hk
      rcases hcode : lookupAssoc reading "code" with _ | codeRaw
      · rw [hcode] at hk; simp at hk
      · rw [hcode] at hk
        rcases codeRaw with code | s | _
        · rcases htemp : lookupAssoc reading "outside_f" with _ | tempRaw
          · rw [htemp] at hk; simp at hk
          · rw [htemp] at hk
            rcases tempRaw with t | s | _
            · simp only [Option.some_inj] at hk
              subst hk
              rcases getCondition_cases code with h | h | h | h <;>
                rw [h] <;> by_cases ht : t > hot <;>
                simp [ht, possibleKeys]
            · simp at hk
            · simp at hk
        · simp at hk
        · simp at hk
  · intro k hk hlook
    unfold visualizeWeather
    rw [hk]
    simpa [handleWeatherCondition] using hlook

/-- Claim C1 witness: instantiating the amended theorem at the concrete
reading whose derived key is "none/hot" shows the cycle issues no actuator
command. -/
theorem claim1_theorem_witness :
    visualizeWeather
      (Except.ok [("code", SVal.num 9999), ("outside_f", SVal.num 50)])
      = none :=
  (claim1_theorem
    (Except.ok [("code", SVal.num 9999), ("outside_f", SVal.num 50)])).2
    "none/hot" (by rfl) (by rfl)

/-- Claim C2: on the reading with code 1000 and outside temperature 70 the
live module classifies to "sunny/cold" (its temperature branch labels
readings above the hot threshold "cold"), not "sunny/hot" as the spec
scenario requires; the older variant in src/models/module.go skips the
cycle entirely on this reading because it demands a string "condition"
field.  Either way the claimed key "sunny/hot" is not produced. -/
theorem claim2_code_divergence :
    visualizeWeatherKey
      (Except.ok [("code", SVal.num 1000), ("outside_f", SVal.num 70)])
      = some "sunny/cold" ∧
    visualizeWeatherKeyV2
      (Except.ok [("code", SVal.num 1000), ("outside_f", SVal.num 70)])
      = none := by
  constructor <;> rfl

/-- One readiness event observed by the polling loop's select: a tick
carrying the sensor result the cycle will see, a cancellation, or both
ready at once.  Go's select chooses between simultaneously ready cases
arbitrarily; the Boolean records whether it picks the tick. -/
inductive LoopEvent where
  | tick : Except String Reading → LoopEvent
  | cancel : LoopEvent
  | both : Except String Reading → Bool → LoopEvent

/-- The for-select loop of startWeatherVizService: at the top of every
iteration the loop returns if ctx.Err() is already non-nil, then selects
between ctx.Done() and the ticker; a tick runs one visualizeWeather
cycle.  The output lists, per executed cycle, the LED command that cycle
issued (none when the cycle was skipped or the key was unknown).  When
tick and cancellation are both ready and the select picks the tick, one
more cycle runs and the next iteration's top-of-loop check exits. -/
def loopRun : List LoopEvent → List (Option GoVal)
  | [] => []
  | LoopEvent.tick r :: rest => visualizeWeather r :: loopRun rest
  | LoopEvent.cancel :: _ => []
  | LoopEvent.both r pickTick :: _ =>
    if pickTick then [visualizeWeather r] else []

/-- startWeatherVizService: one visualizeWeather cycle immediately, then
the ticker loop until cancellation. -/
def startWeatherVizService (first : Except String Reading)
    (events : List LoopEvent) : List (Option GoVal) :=
  visualizeWeather first :: loopRun events

/-- Claim C6: a failed sensor read produces no actuator command in that
cycle, does not terminate the loop, and the next tick runs a fresh
visualizeWeather cycle with no retry in between. -/
theorem claim6_theorem (e : String) (r : Except String Reading)
    (events : List LoopEvent) :
    visualizeWeather (Except.error e) = none ∧
    startWeatherVizService (Except.error e) events = none :: loopRun events ∧
    loopRun (LoopEvent.tick (Except.error e) :: LoopEvent.tick r :: events)
      = none :: visualizeWeather r :: loopRun events := by
  exact ⟨rfl, rfl, rfl⟩

/-- Claim C7 counterexample: when the cancellation signal and a tick are
ready simultaneously and the select picks the tick, the loop performs one
more cycle instead of exiting immediately, so the select does not prefer
cancellation. -/
theorem claim7_counterexample :
    (loopRun [LoopEvent.both
      (Except.ok [("code", SVal.num 1003), ("outside_f", SVal.num 20)])
      true]).length = 1 := by
  rfl

/-- Claim C7 (amended): the loop runs one cycle immediately and one per
tick; a cancellation observed alone, or at the top of an iteration, exits
without running a cycle; when tick and cancellation are simultaneously
ready the select choice is arbitrary, and at most one further cycle runs
before the next top-of-loop cancellation check exits. -/
theorem claim7_theorem (first r : Except String Reading)
    (events : List LoopEvent) (pickTick : Bool) :
    startWeatherVizService first events
      = visualizeWeather first :: loopRun events ∧
    loopRun (LoopEvent.cancel :: events) = [] ∧
    loopRun (LoopEvent.tick r :: events)
      = visualizeWeather r :: loopRun events ∧
    loopRun (LoopEvent.both r false :: events) = [] ∧
    loopRun (LoopEvent.both r pickTick :: events)
      = if pickTick then [visualizeWeather r] else [] := by
  exact ⟨rfl, rfl, rfl, rfl, rfl⟩

/-- ServiceConfig from the source (json fields refresh-interval,
weather-sensor, led-component). -/
structure Config where
  refreshInterval : ℤ
  weatherSensor : String
  ledComponent : String
deriving DecidableEq

/-- Config.Validate from the live module: rejects a zero refresh interval
and empty identifiers in source order, otherwise returns the implicit
(empty) and optional dependency lists. -/
def Config.Validate (cfg : Config) :
    Except String (List String × List String) :=
  if cfg.refreshInterval = 0 then
    Except.error "expected refresh-interval attribute for weather module"
  else if cfg.weatherSensor = "" then
    Except.error "expected weather-sensor attribute for weather module"
  else if cfg.ledComponent = "" then
    Except.error "expected led-component attribute for weather module"
  else
    Except.ok ([], [cfg.weatherSensor, cfg.ledComponent])

/-- Whether validation succeeds (the returned error is nil). -/
def validatePasses (cfg : Config) : Bool :=
  match cfg.Validate with
  | Except.ok _ => true
  | Except.error _ => false

/-- Claim C8 counterexample: the config with refresh interval -1 and
non-empty identifiers passes validation although its refresh interval is
not a positive integer, so validation does not fail on every invalid
field. -/
theorem claim8_counterexample :
    validatePasses ⟨-1, "sensor", "led"⟩ = true ∧ (-1 : ℤ) < 0 := by
  constructor
  · rfl
  · decide

/-- Claim C8 (amended): validation fails exactly when the refresh interval
is zero or one of the identifiers is the empty string; a passing config
therefore has a nonzero (but possibly negative) refresh interval and two
non-empty identifiers. -/
theorem claim8_theorem (cfg : Config) :
    validatePasses cfg
      = (!(cfg.refreshInterval == 0) && !(cfg.weatherSensor == "")
          && !(cfg.ledComponent == "")) := by
  by_cases h1 : cfg.refreshInterval = 0 <;>
    by_cases h2 : cfg.weatherSensor = "" <;>
    by_cases h3 : cfg.ledComponent = "" <;>
    simp [validatePasses, Config.Validate, h1, h2, h3]

/-- The mutable fields of weatherboxServiceService that DoCommand can
touch, abstracted: ledActive stands for the session handle
(ledCancelFunc/ledUpdateCtx) being non-nil; the resolved handles and the
interval are carried to state that DoCommand leaves them alone. -/
structure MState where
  ledActive : Bool
  weatherSensor : String
  ledComponent : String
  refreshInterval : ℤ
deriving DecidableEq

/-- A value in a DoCommand request map (Go: any; the code only compares it
against the strings "start" and "stop", which is false for any non-string
dynamic type). -/
inductive CVal where
  | str : String → CVal
  | other : CVal
deriving DecidableEq

/-- DoCommand as a state transformer: the new state, the response map, and
the returned error (nil on every path in the source).  The start branch
additionally spawns the polling goroutine; goroutine interleaving is
modelled by the labelled transition system below. -/
def doCommand (st : MState) (cmd : List (String × CVal)) :
    MState × List (String × String) × Option String :=
  match lookupAssoc cmd "state" with
  | some state =>
    if state = CVal.str "start" then
      if st.ledActive then (st, [("warning", "already running")], none)
      else ({ st with ledActive := true }, [("started", "true")], none)
    else if state = CVal.str "stop" then
      if st.ledActive = false then
        (st, [("warning", "no currently running service to stop")], none)
      else ({ st with ledActive := false }, [("stopped", "true")], none)
    else (st, [], none)
  | none => (st, [], none)

/-- Claim C10: a command map without a "state" key, or whose "state" value
is neither "start" nor "stop", yields an empty response map, a nil error,
and an unchanged service state. -/
theorem claim10_theorem (st : MState) (cmd : List (String × CVal))
    (h : ∀ v, lookupAssoc cmd "state" = some v →
      v ≠ CVal.str "start" ∧ v ≠ CVal.str "stop") :
    doCommand st cmd = (st, [], none) := by
  unfold doCommand
  rcases hs : lookupAssoc cmd "state" with _ | v
  · rfl
  · obtain ⟨h1, h2⟩ := h v hs
    simp [h1, h2]

/-- Claim C10 witness: a map without "state" and a map with an
unrecognized "state" value both leave a concrete state untouched. -/
theorem claim10_witness :
    doCommand ⟨false, "s", "l", 1⟩ [("visualize", CVal.str "now")]
      = (⟨false, "s", "l", 1⟩, [], none) ∧
    doCommand ⟨true, "s", "l", 1⟩ [("state", CVal.str "restart")]
      = (⟨true, "s", "l", 1⟩, [], none) := by
  constructor
  · exact claim10_theorem _ _ (by intro v hv; simp [lookupAssoc] at hv)
  · exact claim10_theorem _ _ (by
      intro v hv
      simp [lookupAssoc] at hv
      subst hv
      exact ⟨by decide, by decide⟩)

/-- Micro-steps of the lifecycle operations, in source order: handle and
interval swaps, loop-context cancellation, WaitGroup wait, clearing the
session fields, root-context cancellation, and (never emitted by any
operation) relaunching the loop. -/
inductive RStep where
  | swapSensor
  | swapLed
  | swapInterval
  | cancelLoop
  | waitLoop
  | clearSession
  | cancelRoot
  | startLoop
deriving DecidableEq

/-- Reconfigure's actions in source order on its success path, given
whether a session is active (ledCancelFunc non-nil): store the newly
resolved sensor handle, LED handle, and refresh interval; then, when a
session is active, cancel the loop context and wait on the WaitGroup; and
finally clear the session fields.  It never relaunches the loop. -/
def reconfigureSteps (active : Bool) : List RStep :=
  [RStep.swapSensor, RStep.swapLed, RStep.swapInterval]
    ++ (if active then [RStep.cancelLoop, RStep.waitLoop] else [])
    ++ [RStep.clearSession]

/-- The stop branch of DoCommand: when a session is active, cancel, wait,
and clear; otherwise only the warning response (no actions). -/
def stopSteps (active : Bool) : List RStep :=
  if active then [RStep.cancelLoop, RStep.waitLoop, RStep.clearSession]
  else []

/-- Close: cancel the root context, then, when a session is active, cancel
the loop context and wait on the WaitGroup (Close does not clear the
session fields). -/
def closeSteps (active : Bool) : List RStep :=
  RStep.cancelRoot ::
    (if active then [RStep.cancelLoop, RStep.waitLoop] else [])

/-- Every cancellation of the loop context within an operation is followed
by a wait on the WaitGroup before the operation returns. -/
abbrev waitFollowsCancel (l : List RStep) : Prop :=
  RStep.cancelLoop ∈ l →
    RStep.waitLoop ∈ l ∧
      l.indexOf RStep.cancelLoop < l.indexOf RStep.waitLoop

/-- Claim C3 counterexample: with a session active, Reconfigure stores the
new sensor handle as its first action (index 0) and only cancels the
running loop afterwards (index 3), so it does not cancel and wait before
swapping the handles. -/
theorem claim3_counterexample :
    (reconfigureSteps true).indexOf RStep.swapSensor = 0 ∧
    (reconfigureSteps true).indexOf RStep.cancelLoop = 3 ∧
    (reconfigureSteps true).indexOf RStep.swapSensor <
      (reconfigureSteps true).indexOf RStep.cancelLoop := by
  decide

/-- Claim C3 (amended): Reconfigure swaps the sensor handle, LED handle,
and refresh interval first, and only then cancels the running loops and
waits for their observed exit (so a still-running loop may briefly observe
the new handles), and it does not restart the loops afterwards. -/
theorem claim3_theorem :
    ((reconfigureSteps true).indexOf RStep.swapSensor <
       (reconfigureSteps true).indexOf RStep.cancelLoop ∧
     (reconfigureSteps true).indexOf RStep.swapLed <
       (reconfigureSteps true).indexOf RStep.cancelLoop ∧
     (reconfigureSteps true).indexOf RStep.swapInterval <
       (reconfigureSteps true).indexOf RStep.cancelLoop ∧
     (reconfigureSteps true).indexOf RStep.cancelLoop <
       (reconfigureSteps true).indexOf RStep.waitLoop ∧
     (reconfigureSteps true).indexOf RStep.waitLoop <
       (reconfigureSteps true).indexOf RStep.clearSession) ∧
    (∀ active, (reconfigureSteps active).contains RStep.startLoop
      = false) := by
  constructor
  · decide
  · intro active
    cases active <;> decide

/-- Lifecycle state of the service's background machinery: ledActive
models ledCancelFunc being non-nil (a session handle exists), loops the
WaitGroup counter (number of live polling goroutines), cancelled whether
ledUpdateCtx is done, and stopping whether a cancel-and-wait caller (the
stop command, Close, or Reconfigure) has issued the cancel and is blocked
in ledWg.Wait. -/
structure LoopSys where
  ledActive : Bool
  loops : ℕ
  cancelled : Bool
  stopping : Bool
deriving DecidableEq

/-- Atomic steps of the lifecycle, interleaving the control surface with
the polling goroutine. -/
inductive SysLabel where
  | cmdStart
  | cmdStartWarn
  | cmdStopCancel
  | cmdStopRet
  | cmdStopWarn
  | loopCycle
  | loopExit
  | reconfCancel
  | reconfRet
  | closeCancel
  | closeRet
deriving DecidableEq

/-- The state before any command: no session handle, no goroutine. -/
def initSys : LoopSys := ⟨false, 0, false, false⟩

/-- Guarded transition function; none when the step is not enabled in the
given state.  Control-surface calls are serialized; the polling goroutine
interleaves freely.  cmdStart spawns the goroutine under a fresh context;
cmdStopRet and reconfRet clear the session fields after the wait returns;
closeRet only returns from the wait (Close never clears the fields);
loopCycle is the goroutine running one visualizeWeather cycle (the only
step that can issue an actuator command); loopExit is the goroutine
observing cancellation and returning, which decrements the WaitGroup. -/
def sysStep (s : LoopSys) : SysLabel → Option LoopSys
  | SysLabel.cmdStart =>
    if s.ledActive then none
    else some { s with ledActive := true, loops := s.loops + 1,
                       cancelled := false }
  | SysLabel.cmdStartWarn => if s.ledActive then some s else none
  | SysLabel.cmdStopCancel =>
    if s.ledActive ∧ ¬ s.stopping then
      some { s with cancelled := true, stopping := true }
    else none
  | SysLabel.cmdStopRet =>
    if s.stopping ∧ s.loops = 0 then
      some { s with ledActive := false, stopping := false }
    else none
  | SysLabel.cmdStopWarn => if s.ledActive then none else some s
  | SysLabel.loopCycle => if 0 < s.loops then some s else none
  | SysLabel.loopExit =>
    if 0 < s.loops ∧ s.cancelled then some { s with loops := s.loops - 1 }
    else none
  | SysLabel.reconfCancel =>
    if s.ledActive ∧ ¬ s.stopping then
      some { s with cancelled := true, stopping := true }
    else none
  | SysLabel.reconfRet =>
    if s.stopping ∧ s.loops = 0 then
      some { s with ledActive := false, stopping := false }
    else none
  | SysLabel.closeCancel =>
    if s.ledActive ∧ ¬ s.stopping then
      some { s with cancelled := true, stopping := true }
    else none
  | SysLabel.closeRet =>
    if s.stopping ∧ s.loops = 0 then some { s with stopping := false }
    else none

/-- Run a list of steps from a state; none if any step is not enabled. -/
def sysRun : LoopSys → List SysLabel → Option LoopSys
  | s, [] => some s
  | s, l :: ls =>
    match sysStep s l with
    | none => none
    | some s' => sysRun s' ls

/-- Inductive invariant of the lifecycle: at most one polling goroutine,
none when no session handle exists, and a waiter exists only while the
session handle does. -/
def SysInv (s : LoopSys) : Prop :=
  s.loops ≤ 1 ∧
  (s.ledActive = false → s.loops = 0 ∧ s.stopping = false) ∧
  (s.stopping = true → s.ledActive = true)

lemma sysStep_inv {s s' : LoopSys} {l : SysLabel} (hs : SysInv s)
    (h : sysStep s l = some s') : SysInv s' := by
  obtain ⟨hle, hidle, hstop⟩ := hs
  cases l <;> simp only [sysStep] at h <;> split at h <;>
    first
      | (rw [Option.some_inj] at h
         subst h
         refine ⟨?_, ?_, ?_⟩ <;> intros <;> simp_all)
      | exact Option.noConfusion h

lemma sysRun_inv : ∀ (tr : List SysLabel) (s s' : LoopSys),
    SysInv s → sysRun s tr = some s' → SysInv s'
  | [], s, s', hs, h => by
    simp only [sysRun] at h
    exact (Option.some_inj.mp h) ▸ hs
  | l :: ls, s, s', hs, h => by
    simp only [sysRun] at h
    rcases hstep : sysStep s l with _ | s₁
    · rw [hstep] at h; exact absurd h (by simp)
    · rw [hstep] at h
      exact sysRun_inv ls s₁ s' (sysStep_inv hs hstep) h

lemma sysRun_append (a b : List SysLabel) :
    ∀ s, sysRun s (a ++ b) = (sysRun s a).bind fun s' => sysRun s' b := by
  induction a with
  | nil => intro s; simp [sysRun]
  | cons l ls ih =>
    intro s
    simp only [List.cons_append, sysRun]
    rcases h : sysStep s l with _ | s₁
    · simp
    · simp [ih s₁]

lemma sysRun_quiescent : ∀ (tr : List SysLabel) (s s' : LoopSys),
    s.ledActive = false → s.stopping = false → s.loops = 0 →
    sysRun s tr = some s' → SysLabel.cmdStart ∉ tr →
    SysLabel.loopCycle ∉ tr
  | [], _, _, _, _, _, _, _ => by simp
  | l :: ls, s, s', hled, hstop, hloops, hrun, hmem => by
    have hlne : l ≠ SysLabel.cmdStart := fun hEq => hmem (by simp [hEq])
    simp only [sysRun] at hrun
    cases l with
    | cmdStart => exact absurd rfl hlne
    | cmdStopWarn =>
      simp only [sysStep, hled, Bool.false_eq_true, if_false] at hrun
      have hrec := sysRun_quiescent ls s s' hled hstop hloops hrun
        (fun hm => hmem (List.mem_cons_of_mem _ hm))
      intro hcyc
      rcases List.mem_cons.mp hcyc with hEq | hIn
      · exact SysLabel.noConfusion hEq
      · exact hrec hIn
    | cmdStartWarn => simp [sysStep, hled] at hrun
    | cmdStopCancel => simp [sysStep, hled] at hrun
    | cmdStopRet => simp [sysStep, hstop] at hrun
    | loopCycle => simp [sysStep, hloops] at hrun
    | loopExit => simp [sysStep, hloops] at hrun
    | reconfCancel => simp [sysStep, hled] at hrun
    | reconfRet => simp [sysStep, hstop] at hrun
    | closeCancel => simp [sysStep, hled] at hrun
    | closeRet => simp [sysStep, hstop] at hrun

/-- Claim C4: issuing start while a session handle exists returns the
warning response with a nil error and leaves the state untouched; issuing
stop with no session does the same; and after a start followed by a second
(warned) start exactly one polling goroutine is live. -/
theorem claim4_theorem :
    (∀ st : MState, st.ledActive = true →
      doCommand st [("state", CVal.str "start")]
        = (st, [("warning", "already running")], none)) ∧
    (∀ st : MState, st.ledActive = false →
      doCommand st [("state", CVal.str "stop")]
        = (st, [("warning", "no currently running service to stop")],
           none)) ∧
    sysRun initSys [SysLabel.cmdStart, SysLabel.cmdStartWarn]
      = some ⟨true, 1, false, false⟩ := by
  refine ⟨?_, ?_, by decide⟩
  · intro st h
    simp [doCommand, lookupAssoc, h]
  · intro st h
    simp [doCommand, lookupAssoc, h]

/-- Claim C4 witness: the double-start warning and the idle-stop warning
evaluated on concrete states. -/
theorem claim4_witness :
    doCommand ⟨true, "s", "l", 2⟩ [("state", CVal.str "start")]
      = (⟨true, "s", "l", 2⟩, [("warning", "already running")], none) ∧
    doCommand ⟨false, "s", "l", 2⟩ [("state", CVal.str "stop")]
      = (⟨false, "s", "l", 2⟩,
         [("warning", "no currently running service to stop")], none) :=
  ⟨claim4_theorem.1 _ rfl, claim4_theorem.2.1 _ rfl⟩

/-- Claim C5: every operation that cancels the loop context (the stop
command, Close, Reconfigure) performs the WaitGroup wait after the cancel
and before returning, and once a stop has returned no further
visualizeWeather cycle (hence no actuator command) runs until a new start
command spawns a fresh loop. -/
theorem claim5_theorem :
    (∀ active : Bool,
       waitFollowsCancel (stopSteps active) ∧
       waitFollowsCancel (closeSteps active) ∧
       waitFollowsCancel (reconfigureSteps active)) ∧
    (∀ (tr₁ tr₂ : List SysLabel) (s : LoopSys),
       sysRun initSys (tr₁ ++ SysLabel.cmdStopRet :: tr₂) = some s →
       SysLabel.cmdStart ∉ tr₂ → SysLabel.loopCycle ∉ tr₂) := by
  constructor
  · intro active
    cases active <;> exact ⟨by decide, by decide, by decide⟩
  · intro tr₁ tr₂ s hrun hmem
    rw [sysRun_append] at hrun
    rcases h1 : sysRun initSys tr₁ with _ | s₁
    · rw [h1] at hrun
      exact absurd hrun (by simp)
    · rw [h1] at hrun
      simp only [Option.some_bind] at hrun
      simp only [sysRun] at hrun
      rcases h2 : sysStep s₁ SysLabel.cmdStopRet with _ | s₂
      · rw [h2] at hrun
        exact absurd hrun (by simp)
      · rw [h2] at hrun
        have hprops : s₂.ledActive = false ∧ s₂.stopping = false ∧
            s₂.loops = 0 := by
          simp only [sysStep] at h2
          split at h2
          · rename_i hguard
            rw [Option.some_inj] at h2
            subst h2
            exact ⟨rfl, rfl, hguard.2⟩
          · exact Option.noConfusion h2
        exact sysRun_quiescent tr₂ s₂ s hprops.1 hprops.2.1 hprops.2.2
          hrun hmem

/-- Claim C5 witness: the stop path on an active session performs its wait
after the cancel, and a concrete trace through start, stop, and a warned
second stop runs no cycle after the stop returned. -/
theorem claim5_witness :
    (RStep.waitLoop ∈ stopSteps true ∧
      (stopSteps true).indexOf RStep.cancelLoop <
        (stopSteps true).indexOf RStep.waitLoop) ∧
    SysLabel.loopCycle ∉ [SysLabel.cmdStopWarn] :=
  ⟨(claim5_theorem.1 true).1 (by decide),
   claim5_theorem.2
     [SysLabel.cmdStart, SysLabel.cmdStopCancel, SysLabel.loopExit]
     [SysLabel.cmdStopWarn] ⟨false, 0, true, false⟩
     (by decide) (by decide)⟩

/-- Claim C9: in every reachable lifecycle state at most one polling
goroutine is live; since the LED dispatch is a synchronous call inside
that goroutine's cycle (the code starts no separate playback goroutine),
at most one task ever issues actuator commands at any instant. -/
theorem claim9_theorem (tr : List SysLabel) (s : LoopSys)
    (h : sysRun initSys tr = some s) : s.loops ≤ 1 :=
  (sysRun_inv tr initSys s ⟨by decide, by decide, by decide⟩ h).1

/-- Claim C9 witness: the state reached by a single start command has one
live goroutine. -/
theorem claim9_witness : (LoopSys.mk true 1 false false).loops ≤ 1 :=
  claim9_theorem [SysLabel.cmdStart] (LoopSys.mk true 1 false false)
    (by decide)
